import Mathlib

/-!
Shallow embedding of the authentication gateway and credential-validation
subsystem of the `ai_base_app` repository, together with proofs of the
behavioural properties stated in its specification.

The embedding covers:

* the API gateway's `authMiddleware` and `createProxyHandler`
  (`src/api-gateway/main.go` and the full gateway variant among the
  unnamed sources);
* the user service's credential store operations
  (`GetSessionByToken` from `src/user-service/repository/user_repository.go`,
  `ValidateAPIKey` / `RevokeAPIKey` / `DeleteAPIKey` from the API-key
  repository) and the HTTP handlers exposing them
  (`VerifyToken`, the validate-key auth handler, and the API-key
  revoke/delete handlers).

Conventions: wall-clock time is a `Nat` parameter `now` (Go's `time.Now()`
is threaded explicitly); database tables are lists of rows; outbound HTTP
calls made by the gateway are represented by an environment of response
oracles, and the calls actually issued are returned alongside the handler's
decision so that "no outbound call is made" is a provable statement.
-/

namespace AiBaseApp

/-- Go's `strings.HasPrefix`, on the character list of the string (all
header values involved are ASCII, so bytes and characters coincide). -/
def goHasPre (s pre : String) : Bool :=
  pre.data.isPrefixOf s.data

/-- Dropping the first `n` bytes of a Go string (`s[n:]`). -/
def goDrop (s : String) (n : Nat) : String :=
  ⟨s.data.drop n⟩

/-- The first `n` bytes of a Go string (`s[:n]`). -/
def goTake (s : String) (n : Nat) : String :=
  ⟨s.data.take n⟩

/-- Go's `len(s)`. -/
def goLen (s : String) : Nat :=
  s.data.length

namespace Gateway

/-- A single header lookup on a Go `http.Header`: `r.Header.Get(name)`
returns the first value set for the name, or `""` when absent.  Headers are
modelled as an association list; canonicalisation of header names is not
modelled because both the gateway and its callers use identical literal
names. -/
def headerGet (headers : List (String × String)) (name : String) : String :=
  match headers.find? (fun p => p.1 == name) with
  | some p => p.2
  | none => ""

/-- `req.Header.Set(name, value)`: replaces any existing values for the
name with the single given value. -/
def headerSet (headers : List (String × String)) (name value : String) :
    List (String × String) :=
  (name, value) :: headers.filter (fun p => p.1 != name)

/-- An inbound HTTP request as seen by the gateway: method, URL path, raw
query string, headers and body bytes. -/
structure Request where
  method : String
  path : String
  rawQuery : String
  headers : List (String × String)
  body : List Nat
deriving DecidableEq

/-- The user object returned by the user service's validate-key endpoint
(`map[string]interface{}` in Go).  The gateway only reads the `"id"` and
`"username"` entries, each of which may be absent; `fmt.Sprintf("%v", ·)`
renders the values, so both are modelled as optional strings. -/
structure UserData where
  id : Option String
  username : Option String
deriving DecidableEq

/-- Outcome of `client.Do`: either a response or a transport error (the
carried string is the Go error text). -/
inductive HTTPResult (α : Type) where
  | ok (a : α) : HTTPResult α
  | transportError (msg : String) : HTTPResult α
deriving DecidableEq

/-- The two outbound HTTP calls the auth middleware can make: the API-key
validation POST and the session-token verification POST. -/
inductive OutboundCall where
  | validateKey (apiKey : String) : OutboundCall
  | verifyToken (authHeader : String) : OutboundCall
deriving DecidableEq

/-- Response oracles for the middleware's outbound calls.
`validateKey` is the result of the gateway-side `validateAPIKey` helper
(a success flag plus the decoded user object); `verifyToken` is the raw
outcome of the POST to the user service's verify-token endpoint (transport
error, or a response status). -/
structure GatewayEnv where
  validateKey : String → Bool × Option UserData
  verifyToken : String → HTTPResult Nat

/-- What the middleware does with a request: pass it to the next handler
(with the user object attached to the context on the API-key path), or
terminate it with `http.Error(w, msg, status)`. -/
inductive AuthDecision where
  | next (ctxUser : Option UserData) : AuthDecision
  | reject (status : Nat) (msg : String) : AuthDecision
deriving DecidableEq

/-- The HTTP status with which the middleware terminated the request, or
`none` when it passed the request to the next handler.  `rejectStatus d =
some s` in particular entails that the next handler — and hence the proxy
forwarder — never runs. -/
def rejectStatus : AuthDecision → Option Nat
  | .next _ => none
  | .reject s _ => some s

/-- The gateway's `authMiddleware` (identical logic in both gateway
variants; the API-key branch exists only in the full variant and is
skipped when no `X-API-Key` header is present, so the embedding covers
both).  Returns the decision together with the list of outbound HTTP calls
performed.

Faithful to the source: the allow-list admits `/health`, `/api/v1/login`
(any method) and `POST /api/v1/users`; an `X-API-Key` header, when
present, is validated first and on failure the request is rejected without
reading the `Authorization` header; otherwise the bearer token is
extracted (`strings.TrimPrefix(authHeader, "Bearer ")`, which after the
`HasPrefix` guard is `drop 7`), compared against the shared secret, and
finally verified remotely.  A transport error on the verification call
yields `500 "Internal server error"`; a non-200 verification response
yields `401 "Unauthorized: Invalid token"`.  (The `http.NewRequest`
construction, which cannot fail for the fixed method and URL used, is
modelled as infallible.) -/
def authMiddleware (secretKey : String) (env : GatewayEnv) (r : Request) :
    AuthDecision × List OutboundCall :=
  if r.path == "/health" then
    (.next none, [])
  else if r.path == "/api/v1/login" || (r.path == "/api/v1/users" && r.method == "POST") then
    (.next none, [])
  else
    let apiKey := headerGet r.headers "X-API-Key"
    if apiKey != "" then
      match env.validateKey apiKey with
      | (true, userData) => (.next userData, [.validateKey apiKey])
      | (false, _) => (.reject 401 "Unauthorized: Invalid API key", [.validateKey apiKey])
    else
      let authHeader := headerGet r.headers "Authorization"
      if authHeader == "" || !goHasPre authHeader "Bearer " then
        (.reject 401 "Unauthorized: Missing or invalid Authorization header", [])
      else
        let token := goDrop authHeader 7
        if token == "" then
          (.reject 401 "Unauthorized: Empty token", [])
        else if token == secretKey then
          (.next none, [])
        else
          match env.verifyToken authHeader with
          | .transportError _ => (.reject 500 "Internal server error", [.verifyToken authHeader])
          | .ok status =>
            if status != 200 then
              (.reject 401 "Unauthorized: Invalid token", [.verifyToken authHeader])
            else
              (.next none, [.verifyToken authHeader])

/-- The upstream response received by the proxy forwarder. -/
structure UpstreamResponse where
  status : Nat
  headers : List (String × String)
  body : List Nat
deriving DecidableEq

/-- The outbound request the proxy forwarder executes. -/
structure OutRequest where
  method : String
  url : String
  headers : List (String × String)
  body : List Nat
deriving DecidableEq

/-- Response oracle for the proxy forwarder's outbound call. -/
structure ProxyEnv where
  doRequest : OutRequest → HTTPResult UpstreamResponse

/-- The hard byte cap the proxy applies to upstream response bodies:
`http.MaxBytesReader(w, resp.Body, 10*1024*1024)` in the full gateway. -/
def maxResponseBytes : Nat := 10 * 1024 * 1024

/-- The outbound request built by `createProxyHandler` before execution:
target base URL plus original path and query, all inbound headers copied,
and — only when a user object was attached to the context by API-key
authentication — the `X-User-ID` / `X-Username` identity headers set from
its `"id"` / `"username"` entries. -/
def proxyOutRequest (targetURL : String) (ctxUser : Option UserData)
    (r : Request) : OutRequest :=
  let url := targetURL ++ r.path ++ (if r.rawQuery != "" then "?" ++ r.rawQuery else "")
  let base := r.headers
  let withUser :=
    match ctxUser with
    | none => base
    | some u =>
      let h1 := match u.id with
        | some uid => headerSet base "X-User-ID" uid
        | none => base
      match u.username with
      | some uname => headerSet h1 "X-Username" uname
      | none => h1
  { method := r.method, url := url, headers := withUser, body := r.body }

/-- What the proxy handler wrote back to the client: the response status,
headers and body bytes copied from the upstream (the body capped at
`maxResponseBytes`), or an `http.Error` text body on failure; plus the log
lines emitted and the outbound request that was executed. -/
structure ProxyResult where
  sent : OutRequest
  status : Nat
  headersOut : List (String × String)
  bodyOut : List Nat
  errorBody : Option String
  logs : List String
deriving DecidableEq

/-- The gateway's `createProxyHandler`.  Builds the outbound request
(`proxyOutRequest`), executes it, and on a transport error responds
`502 Bad Gateway` with the descriptive `http.Error` body; on success it
copies the upstream status and headers verbatim and copies the body
through `http.MaxBytesReader`: at most `maxResponseBytes` bytes are
written, and when the upstream body exceeds the cap `io.Copy` returns the
reader's error, which the handler logs as "Failed to write response". -/
def createProxyHandler (targetURL : String) (env : ProxyEnv)
    (ctxUser : Option UserData) (r : Request) : ProxyResult :=
  let outReq := proxyOutRequest targetURL ctxUser r
  match env.doRequest outReq with
  | .transportError e =>
    { sent := outReq
      status := 502
      headersOut := []
      bodyOut := []
      errorBody := some ("Failed to forward request to " ++ targetURL ++ ": " ++ e)
      logs := ["Failed to forward request"] }
  | .ok resp =>
    let written := resp.body.take maxResponseBytes
    let copyLogs :=
      if resp.body.length > maxResponseBytes then ["Failed to write response"] else []
    { sent := outReq
      status := resp.status
      headersOut := resp.headers
      bodyOut := written
      errorBody := none
      logs := copyLogs ++ ["Proxied request"] }

end Gateway

namespace UserService

/-- A user row (`models.User`).  Only the columns read by the credential
paths are carried; timestamps are `Nat` ticks. -/
structure User where
  id : Nat
  username : String
  email : String
  firstName : String
  lastName : String
  isActive : Bool
  createdAt : Nat
  updatedAt : Nat
deriving DecidableEq

/-- A session row (`models.Session`): primary key `id`, owning `userID`,
the opaque `token` (carrying a database unique index) and its expiry. -/
structure Session where
  id : Nat
  userID : Nat
  token : String
  expiresAt : Nat
deriving DecidableEq

/-- An API key row (`models.APIKey`): primary key `id`, owning `userID`,
the opaque `key` string (unique index), display `name`, expiry and the
soft-revocation flag `isActive`. -/
structure APIKey where
  id : Nat
  userID : Nat
  key : String
  name : String
  expiresAt : Nat
  isActive : Bool
deriving DecidableEq

/-- The user service's database state: the three tables the credential
paths touch. -/
structure Store where
  users : List User
  sessions : List Session
  apiKeys : List APIKey
deriving DecidableEq

/-- Repository-level outcome of a session lookup.  Every failure of
`GetSessionByToken` — missing row, expired row, missing user — is the
single error `ErrUserNotFound` in the source. -/
inductive SessionResult where
  | found (s : Session) (u : User) : SessionResult
  | errUserNotFound : SessionResult
deriving DecidableEq

/-- `UserRepository.GetSessionByToken`: look the session up by token; if
its `ExpiresAt` is before `now`, delete the row (by primary key) and
return `ErrUserNotFound`; otherwise load the owning user by primary key
and return both.  No check of the user's `isActive` flag is performed.
Returns the result together with the updated store. -/
def GetSessionByToken (db : Store) (now : Nat) (token : String) :
    SessionResult × Store :=
  match db.sessions.find? (fun s => s.token == token) with
  | none => (.errUserNotFound, db)
  | some s =>
    if s.expiresAt < now then
      (.errUserNotFound,
        { db with sessions := db.sessions.filter (fun x => x.id != s.id) })
    else
      match db.users.find? (fun u => u.id == s.userID) with
      | none => (.errUserNotFound, db)
      | some u => (.found s u, db)

/-- `APIKeyRepository.ValidateAPIKey`: a single query
`key = ? AND is_active = true AND expires_at > now`; returns the owning
user id of the first matching row, or `none` ("invalid or expired API
key").  The best-effort `last_used` update (whose error the source
discards, and whose column is absent from the `APIKey` model) has no
observable effect on any modelled state and is omitted. -/
def ValidateAPIKey (keys : List APIKey) (now : Nat) (keyString : String) :
    Option Nat :=
  match keys.find? (fun k => k.key == keyString && k.isActive && now < k.expiresAt) with
  | some k => some k.userID
  | none => none

/-- Repository-level outcome of revoke/delete: success, or the not-found
error (`"API key not found or already revoked"` for revoke,
`"API key not found"` for delete). -/
inductive KeyOpResult where
  | ok : KeyOpResult
  | errNotFound : KeyOpResult
deriving DecidableEq

/-- `APIKeyRepository.RevokeAPIKey`: `UPDATE api_keys SET is_active=false
WHERE id = ? AND user_id = ?`; when no row matched (`RowsAffected == 0`)
the not-found error is returned.  Returns the outcome and the updated key
table. -/
def RevokeAPIKey (keys : List APIKey) (keyID userID : Nat) :
    KeyOpResult × List APIKey :=
  let keysAfter := keys.map (fun k =>
    if k.id == keyID && k.userID == userID then { k with isActive := false } else k)
  let affected := (keys.filter (fun k => k.id == keyID && k.userID == userID)).length
  if affected == 0 then (.errNotFound, keysAfter) else (.ok, keysAfter)

/-- `APIKeyRepository.DeleteAPIKey`: `DELETE FROM api_keys WHERE id = ?
AND user_id = ?`; when no row matched the not-found error is returned. -/
def DeleteAPIKey (keys : List APIKey) (keyID userID : Nat) :
    KeyOpResult × List APIKey :=
  let keysAfter := keys.filter (fun k => !(k.id == keyID && k.userID == userID))
  let affected := (keys.filter (fun k => k.id == keyID && k.userID == userID)).length
  if affected == 0 then (.errNotFound, keysAfter) else (.ok, keysAfter)

/-- The identity body written by the verify-token handler on success
(`models.UserResponse`). -/
structure UserResponse where
  id : Nat
  username : String
  email : String
  firstName : String
  lastName : String
  isActive : Bool
  createdAt : Nat
  updatedAt : Nat
deriving DecidableEq

/-- Builds the `UserResponse` body from a user row, as every handler
does field by field. -/
def userResponse (u : User) : UserResponse :=
  { id := u.id, username := u.username, email := u.email
    firstName := u.firstName, lastName := u.lastName, isActive := u.isActive
    createdAt := u.createdAt, updatedAt := u.updatedAt }

/-- Token extraction shared by the verify-token and logout handlers:
`if len(authHeader) > 7 && authHeader[:7] == "Bearer "` then the remainder,
otherwise the whole header value. -/
def extractToken (authHeader : String) : String :=
  if goLen authHeader > 7 && goTake authHeader 7 == "Bearer " then
    goDrop authHeader 7
  else
    authHeader

/-- `UserHandler.VerifyToken` (`POST /api/v1/verify-token`): 401 when the
`Authorization` header is absent; otherwise extract the token, look the
session up, and answer 401 `"Invalid or expired token"` on any repository
error or 200 with the user's identity body.  The user's `isActive` flag is
serialised into the body but never tested.  Returns (status, body) and the
store after the lookup's lazy-expiry side effect. -/
def VerifyToken (db : Store) (now : Nat) (authHeader : String) :
    (Nat × Option UserResponse) × Store :=
  if authHeader == "" then ((401, none), db)
  else
    let token := extractToken authHeader
    match GetSessionByToken db now token with
    | (.errUserNotFound, db1) => ((401, none), db1)
    | (.found _ u, db1) => ((200, some (userResponse u)), db1)

/-- The JSON body of a validate-key success response: `{"valid": true,
"user": {id, username, email, is_active}}`. -/
structure ValidateKeyBody where
  valid : Bool
  id : Nat
  username : String
  email : String
  isActive : Bool
deriving DecidableEq

/-- `AuthHandler.ValidateAPIKey` (`POST /api/auth/validate-key`).  The
request body is modelled post-decoding: `none` stands for an undecodable
body (400); otherwise the repository validates the key (failure → 401
`"Invalid or expired API key"`), the owning user is loaded (failure → 500)
and 200 is returned with the user object. -/
def AuthValidateAPIKey (db : Store) (now : Nat) (reqAPIKey : Option String) :
    Nat × Option ValidateKeyBody :=
  match reqAPIKey with
  | none => (400, none)
  | some apiKey =>
    match ValidateAPIKey db.apiKeys now apiKey with
    | none => (401, none)
    | some userID =>
      match db.users.find? (fun u => u.id == userID) with
      | none => (500, none)
      | some u =>
        (200, some { valid := true, id := u.id, username := u.username
                     email := u.email, isActive := u.isActive })

/-- `APIKeyHandler.RevokeAPIKey` (`PUT /api/v1/keys/{id}`).  The context
user id (set by the user service's auth middleware) and the parsed URL id
are modelled as `Option` parameters (`none` = missing context value → 401,
unparsable id → 400).  Every repository error is mapped to
500 `"Failed to revoke API key"`; success is 200. -/
def RevokeAPIKeyHandler (db : Store) (ctxUserID keyID : Option Nat) :
    Nat × Store :=
  match ctxUserID with
  | none => (401, db)
  | some userID =>
    match keyID with
    | none => (400, db)
    | some kid =>
      match RevokeAPIKey db.apiKeys kid userID with
      | (.errNotFound, keysAfter) => (500, { db with apiKeys := keysAfter })
      | (.ok, keysAfter) => (200, { db with apiKeys := keysAfter })

/-- `APIKeyHandler.DeleteAPIKey` (`DELETE /api/v1/keys/{id}`): same
shape as the revoke handler; every repository error is mapped to
500 `"Failed to delete API key"`. -/
def DeleteAPIKeyHandler (db : Store) (ctxUserID keyID : Option Nat) :
    Nat × Store :=
  match ctxUserID with
  | none => (401, db)
  | some userID =>
    match keyID with
    | none => (400, db)
    | some kid =>
      match DeleteAPIKey db.apiKeys kid userID with
      | (.errNotFound, keysAfter) => (500, { db with apiKeys := keysAfter })
      | (.ok, keysAfter) => (200, { db with apiKeys := keysAfter })

end UserService

/-! Concrete fixtures used by witnesses and counterexamples. -/

/-- A gateway environment in which every outbound call fails with a
transport error. -/
def downEnv : Gateway.GatewayEnv :=
  { validateKey := fun _ => (false, none)
    verifyToken := fun _ => .transportError "dial tcp: connection refused" }

/-- A gateway environment in which the user service answers: API keys are
invalid, token verification succeeds with status 200. -/
def upEnv : Gateway.GatewayEnv :=
  { validateKey := fun _ => (false, none)
    verifyToken := fun _ => .ok 200 }

/-- A request with no credential headers at all. -/
def bareRequest (method path : String) : Gateway.Request :=
  { method := method, path := path, rawQuery := "", headers := [], body := [] }

/-- A request carrying `Authorization: Bearer <tok>` and nothing else. -/
def bearerRequest (path tok : String) : Gateway.Request :=
  { method := "GET", path := path, rawQuery := ""
    headers := [("Authorization", "Bearer " ++ tok)], body := [] }

/-- An upstream body one byte longer than the proxy's response cap. -/
def overCapBody : List Nat := List.replicate (Gateway.maxResponseBytes + 1) 0

/-- A proxy environment whose upstream always answers 200 with
`overCapBody`. -/
def overCapEnv : Gateway.ProxyEnv :=
  { doRequest := fun _ => .ok { status := 200, headers := [], body := overCapBody } }

/-- A proxy environment whose upstream is unreachable. -/
def downProxyEnv : Gateway.ProxyEnv :=
  { doRequest := fun _ => .transportError "dial tcp: connection refused" }

/-- A store with one inactive user owning one unexpired session: the
subject was deactivated after logging in. -/
def inactiveUserStore : UserService.Store :=
  { users := [{ id := 1, username := "alice", email := "alice@example.com"
                firstName := "", lastName := "", isActive := false
                createdAt := 0, updatedAt := 0 }]
    sessions := [{ id := 1, userID := 1, token := "tok123", expiresAt := 100 }]
    apiKeys := [] }

/-- A store with a single active, unexpired API key owned by user 1. -/
def oneKeyStore : UserService.Store :=
  { users := [], sessions := []
    apiKeys := [{ id := 1, userID := 1, key := "sk_k1", name := "ci-bot"
                  expiresAt := 1000, isActive := true }] }

/-- A store with a single inactive API key (revoked, expiry far in the
future) owned by user 1, who exists and is active. -/
def revokedKeyStore : UserService.Store :=
  { users := [{ id := 1, username := "bob", email := "bob@example.com"
                firstName := "", lastName := "", isActive := true
                createdAt := 0, updatedAt := 0 }]
    sessions := []
    apiKeys := [{ id := 7, userID := 1, key := "sk_revoked", name := "old"
                  expiresAt := 1000000, isActive := false }] }

/-- A store with a single expired session for user 1. -/
def expiredSessionStore : UserService.Store :=
  { users := [{ id := 1, username := "carol", email := "carol@example.com"
                firstName := "", lastName := "", isActive := true
                createdAt := 0, updatedAt := 0 }]
    sessions := [{ id := 3, userID := 1, token := "oldtok", expiresAt := 10 }]
    apiKeys := [] }

/-! Helper lemmas shared by the claim proofs. -/

open Gateway UserService

/-- In a table whose rows have pairwise-distinct keys (the embedding of a
database unique index), two rows with the same key are the same row. -/
theorem eq_of_pairwise_key {α β : Type _} (f : α → β) {l : List α}
    (hp : l.Pairwise (fun a b => f a ≠ f b)) {x y : α}
    (hx : x ∈ l) (hy : y ∈ l) (hf : f x = f y) : x = y := by
  by_contra hne
  have hsymm : Symmetric (fun a b : α => f a ≠ f b) := by
    intro a b hab h
    exact hab h.symm
  exact List.Pairwise.forall hsymm hp hx hy hne hf

/-- Looking a row up by its key under a unique index finds exactly that
row. -/
theorem find?_key_self {α β : Type _} [BEq β] [LawfulBEq β] (f : α → β) {l : List α}
    (hp : l.Pairwise (fun a b => f a ≠ f b)) {s : α} (hs : s ∈ l) :
    l.find? (fun x => f x == f s) = some s := by
  cases h : l.find? (fun x => f x == f s) with
  | none =>
    have := List.find?_eq_none.mp h s hs
    simp at this
  | some t =>
    have ht : t ∈ l := List.mem_of_find?_eq_some h
    have hft : f t = f s := by simpa using List.find?_some h
    rw [eq_of_pairwise_key f hp ht hs hft]

/-! Claim theorems. -/

/-- C8: for every request whose outbound call to the resolved upstream
fails with a transport error, the proxy forwarder responds 502 (never
500) with the descriptive body naming the unreachable target. -/
theorem c8_proxy_transport_error_502 (targetURL : String) (env : ProxyEnv)
    (ctxUser : Option UserData) (r : Request) (e : String)
    (h : env.doRequest (proxyOutRequest targetURL ctxUser r) = .transportError e) :
    (createProxyHandler targetURL env ctxUser r).status = 502 ∧
    (createProxyHandler targetURL env ctxUser r).status ≠ 500 ∧
    (createProxyHandler targetURL env ctxUser r).errorBody
      = some ("Failed to forward request to " ++ targetURL ++ ": " ++ e) := by
  simp only [createProxyHandler]
  rw [h]
  refine ⟨rfl, ?_, rfl⟩
  show (502 : Nat) ≠ 500
  decide

/-- C8 witness: the theorem applied to a concrete request against an
unreachable upstream. -/
theorem c8_witness :
    (createProxyHandler "http://user-service:8081" downProxyEnv none
        (bareRequest "GET" "/api/v1/users/1")).status = 502 ∧
    (createProxyHandler "http://user-service:8081" downProxyEnv none
        (bareRequest "GET" "/api/v1/users/1")).status ≠ 500 ∧
    (createProxyHandler "http://user-service:8081" downProxyEnv none
        (bareRequest "GET" "/api/v1/users/1")).errorBody
      = some ("Failed to forward request to " ++ "http://user-service:8081" ++ ": "
          ++ "dial tcp: connection refused") :=
  c8_proxy_transport_error_502 "http://user-service:8081" downProxyEnv none
    (bareRequest "GET" "/api/v1/users/1") "dial tcp: connection refused" rfl

/-- C9: for every upstream response whose body exceeds the configured cap,
the body the gateway writes back is exactly the first `maxResponseBytes`
bytes of the upstream body (truncation at the cap boundary), and the
truncation is logged ("Failed to write response") rather than silent. -/
theorem c9_proxy_body_cap (targetURL : String) (env : ProxyEnv)
    (ctxUser : Option UserData) (r : Request) (resp : UpstreamResponse)
    (hok : env.doRequest (proxyOutRequest targetURL ctxUser r) = .ok resp)
    (hbig : resp.body.length > maxResponseBytes) :
    (createProxyHandler targetURL env ctxUser r).bodyOut
      = resp.body.take maxResponseBytes ∧
    (createProxyHandler targetURL env ctxUser r).bodyOut.length = maxResponseBytes ∧
    "Failed to write response" ∈ (createProxyHandler targetURL env ctxUser r).logs := by
  simp only [createProxyHandler]
  rw [hok]
  refine ⟨rfl, ?_, ?_⟩
  · simp only [List.length_take]
    exact Nat.min_eq_left (Nat.le_of_lt hbig)
  · simp [if_pos hbig]

/-- C9 witness: a 10 MiB + 1 byte upstream body is cut to exactly
10 MiB and the truncation is logged. -/
theorem c9_witness :
    (createProxyHandler "http://ai-service:8082" overCapEnv none
        (bareRequest "GET" "/api/v1/completions")).bodyOut
      = overCapBody.take maxResponseBytes ∧
    (createProxyHandler "http://ai-service:8082" overCapEnv none
        (bareRequest "GET" "/api/v1/completions")).bodyOut.length = maxResponseBytes ∧
    "Failed to write response" ∈
      (createProxyHandler "http://ai-service:8082" overCapEnv none
        (bareRequest "GET" "/api/v1/completions")).logs := by
  refine c9_proxy_body_cap "http://ai-service:8082" overCapEnv none
    (bareRequest "GET" "/api/v1/completions")
    { status := 200, headers := [], body := overCapBody } rfl ?_
  simp only [overCapBody, List.length_replicate]
  exact Nat.lt_succ_self _

/-- Under the three non-allow-list hypotheses, the two allow-list guards
of `authMiddleware` are false. -/
theorem allowlist_guards_false {r : Request}
    (hHealth : r.path ≠ "/health") (hLogin : r.path ≠ "/api/v1/login")
    (hUsers : ¬(r.path = "/api/v1/users" ∧ r.method = "POST")) :
    ((r.path == "/health") = false) ∧
    ((r.path == "/api/v1/login" || (r.path == "/api/v1/users" && r.method == "POST"))
      = false) := by
  refine ⟨by simp [hHealth], ?_⟩
  rcases Decidable.em (r.path = "/api/v1/users") with hu | hu
  · have hm : r.method ≠ "POST" := fun hm => hUsers ⟨hu, hm⟩
    simp [hLogin, hm]
  · simp [hLogin, hu]

/-- A request whose `Authorization` header value has the `Bearer ` prefix
has a nonempty `Authorization` header. -/
theorem bearer_header_ne_empty {s : String} (h : goHasPre s "Bearer " = true) :
    (s == "") = false := by
  cases hcase : s == "" with
  | false => rfl
  | true =>
    have hs : s = "" := by simpa using hcase
    rw [hs] at h
    exact absurd h (by decide)

/-- C1 counterexample: a request that reaches the session-token
verification step (`GET /api/v1/users` with a bearer token that is not
the shared secret) while the user service is unreachable is answered with
500 "Internal server error", not with 401 "Invalid token" as the claim
states. -/
theorem c1_counterexample :
    authMiddleware "supersecret" downEnv (bearerRequest "/api/v1/users" "sometoken")
      = (.reject 500 "Internal server error", [.verifyToken "Bearer sometoken"]) := by
  decide

/-- C1 (amended): for every request that reaches the session-token
verification step (not allow-listed, no `X-API-Key`, a well-formed
`Authorization: Bearer` header with a nonempty token different from the
shared secret), if the verification call fails with a transport error the
middleware responds 500 "Internal server error" — not 401 — and does not
invoke the next handler. -/
theorem c1_transport_error_500 (secretKey : String) (env : GatewayEnv)
    (r : Request) (e : String)
    (hHealth : r.path ≠ "/health")
    (hLogin : r.path ≠ "/api/v1/login")
    (hUsers : ¬(r.path = "/api/v1/users" ∧ r.method = "POST"))
    (hNoKey : headerGet r.headers "X-API-Key" = "")
    (hBearer : goHasPre (headerGet r.headers "Authorization") "Bearer " = true)
    (hTok : goDrop (headerGet r.headers "Authorization") 7 ≠ "")
    (hNotSecret : goDrop (headerGet r.headers "Authorization") 7 ≠ secretKey)
    (hTransport : env.verifyToken (headerGet r.headers "Authorization")
      = .transportError e) :
    authMiddleware secretKey env r
      = (.reject 500 "Internal server error",
         [.verifyToken (headerGet r.headers "Authorization")]) := by
  obtain ⟨h1, h2⟩ := allowlist_guards_false hHealth hLogin hUsers
  have hne := bearer_header_ne_empty hBearer
  have htok : (goDrop (headerGet r.headers "Authorization") 7 == "") = false := by
    simp [hTok]
  have hsec : (goDrop (headerGet r.headers "Authorization") 7 == secretKey) = false := by
    simp [hNotSecret]
  simp [authMiddleware, h1, h2, hNoKey, hne, hBearer, htok, hsec, hTransport]

/-- C1 witness: the amended theorem at a concrete request and an
unreachable user service. -/
theorem c1_witness :
    authMiddleware "supersecret" downEnv (bearerRequest "/api/v1/stats" "tok42")
      = (.reject 500 "Internal server error", [.verifyToken "Bearer tok42"]) :=
  c1_transport_error_500 "supersecret" downEnv
    (bearerRequest "/api/v1/stats" "tok42") "dial tcp: connection refused"
    (by decide) (by decide) (by decide) (by decide) (by decide) (by decide)
    (by decide) rfl

/-- C2 counterexample: `GET /api/v1/login` is exempt from authentication
even though it is not `POST /api/v1/login` — the middleware passes the
credential-free request to the next handler (the proxy forwarder, which
then makes an outbound call), instead of the 401 with no outbound call
that the claim requires for every request outside its
(`/health`, `POST /api/v1/login`, `POST /api/v1/users`) allow-list. -/
theorem c2_counterexample :
    authMiddleware "secret" upEnv (bareRequest "GET" "/api/v1/login")
      = (.next none, []) ∧
    rejectStatus (authMiddleware "secret" upEnv (bareRequest "GET" "/api/v1/login")).1
      = none := by
  decide

/-- C2 (amended): the allow-list exemption for the login path is by path
only (any method).  For every request whose path is neither `/health` nor
`/api/v1/login`, which is not `POST /api/v1/users`, and which carries
neither an `X-API-Key` header nor a well-formed `Authorization: Bearer`
header with a nonempty token, the middleware terminates the request with
status 401 and makes no outbound HTTP call; the next handler (and hence
the proxy forwarder) never runs. -/
theorem c2_unauthenticated_rejected (secretKey : String) (env : GatewayEnv)
    (r : Request)
    (hHealth : r.path ≠ "/health")
    (hLogin : r.path ≠ "/api/v1/login")
    (hUsers : ¬(r.path = "/api/v1/users" ∧ r.method = "POST"))
    (hNoKey : headerGet r.headers "X-API-Key" = "")
    (hNoBearer : ¬(goHasPre (headerGet r.headers "Authorization") "Bearer " = true
        ∧ goDrop (headerGet r.headers "Authorization") 7 ≠ "")) :
    rejectStatus (authMiddleware secretKey env r).1 = some 401 ∧
    (authMiddleware secretKey env r).2 = [] := by
  obtain ⟨h1, h2⟩ := allowlist_guards_false hHealth hLogin hUsers
  by_cases hpre : goHasPre (headerGet r.headers "Authorization") "Bearer " = true
  · have hempty : goDrop (headerGet r.headers "Authorization") 7 = "" := by
      by_contra hc
      exact hNoBearer ⟨hpre, hc⟩
    have hne := bearer_header_ne_empty hpre
    simp [authMiddleware, h1, h2, hNoKey, hne, hpre, hempty, rejectStatus]
  · have hpre' : goHasPre (headerGet r.headers "Authorization") "Bearer " = false := by
      simpa using hpre
    simp [authMiddleware, h1, h2, hNoKey, hpre', rejectStatus]

/-- C2 witness: the amended theorem at a concrete credential-free request
to a protected path. -/
theorem c2_witness :
    rejectStatus (authMiddleware "secret" upEnv (bareRequest "GET" "/api/v1/stats")).1
      = some 401 ∧
    (authMiddleware "secret" upEnv (bareRequest "GET" "/api/v1/stats")).2 = [] :=
  c2_unauthenticated_rejected "secret" upEnv (bareRequest "GET" "/api/v1/stats")
    (by decide) (by decide) (by decide) (by decide) (by decide)

/-- C4: when an `X-API-Key` header is present and the key is invalid, the
middleware answers 401 "Unauthorized: Invalid API key" after only the
key-validation call.  The shared secret and the request's `Authorization`
header are universally quantified and unconstrained, so the response is
the same even when the request also carries a valid bearer token or the
shared secret: there is no fallthrough to the other mechanisms. -/
theorem c4_api_key_precedence (secretKey : String) (env : GatewayEnv)
    (r : Request) (k : String)
    (hHealth : r.path ≠ "/health")
    (hLogin : r.path ≠ "/api/v1/login")
    (hUsers : ¬(r.path = "/api/v1/users" ∧ r.method = "POST"))
    (hKey : headerGet r.headers "X-API-Key" = k)
    (hne : k ≠ "")
    (hInvalid : (env.validateKey k).1 = false) :
    authMiddleware secretKey env r
      = (.reject 401 "Unauthorized: Invalid API key", [.validateKey k]) := by
  obtain ⟨h1, h2⟩ := allowlist_guards_false hHealth hLogin hUsers
  rcases hv : env.validateKey k with ⟨b, ud⟩
  rw [hv] at hInvalid
  simp only at hInvalid
  subst hInvalid
  simp [authMiddleware, h1, h2, hKey, hne, hv]

/-- C4 witness: a request carrying both an invalid API key and the shared
secret as a bearer token is still rejected on the API-key check. -/
theorem c4_witness :
    authMiddleware "supersecret" upEnv
      { method := "GET", path := "/api/v1/stats", rawQuery := ""
        headers := [("X-API-Key", "sk_bad"), ("Authorization", "Bearer supersecret")]
        body := [] }
      = (.reject 401 "Unauthorized: Invalid API key", [.validateKey "sk_bad"]) :=
  c4_api_key_precedence "supersecret" upEnv
    { method := "GET", path := "/api/v1/stats", rawQuery := ""
      headers := [("X-API-Key", "sk_bad"), ("Authorization", "Bearer supersecret")]
      body := [] }
    "sk_bad" (by decide) (by decide) (by decide) (by decide) (by decide) rfl

/-- C10: for every request without an `X-API-Key` header that the
middleware passes on (bearer-token or shared-secret authentication), the
context user is `none`, so the proxy forwarder sends exactly the inbound
headers: no identity headers are set, and client-supplied `X-User-ID` /
`X-Username` values reach the upstream unchanged. -/
theorem c10_headers_forwarded_unchanged (secretKey : String) (genv : GatewayEnv)
    (penv : ProxyEnv) (targetURL : String) (r : Request) (u : Option UserData)
    (hNoKey : headerGet r.headers "X-API-Key" = "")
    (hNext : (authMiddleware secretKey genv r).1 = .next u) :
    u = none ∧
    (createProxyHandler targetURL penv u r).sent.headers = r.headers ∧
    headerGet (createProxyHandler targetURL penv u r).sent.headers "X-User-ID"
      = headerGet r.headers "X-User-ID" ∧
    headerGet (createProxyHandler targetURL penv u r).sent.headers "X-Username"
      = headerGet r.headers "X-Username" := by
  have hu : u = none := by
    simp only [authMiddleware, hNoKey, bne_self_eq_false] at hNext
    repeat' split at hNext
    all_goals simp_all
  subst hu
  have hsent : (createProxyHandler targetURL penv none r).sent.headers = r.headers := by
    cases hdo : penv.doRequest (proxyOutRequest targetURL none r) with
    | transportError e =>
      simp only [createProxyHandler, hdo]
      simp [proxyOutRequest]
    | ok resp =>
      simp only [createProxyHandler, hdo]
      simp [proxyOutRequest]
  exact ⟨rfl, hsent, by rw [hsent], by rw [hsent]⟩

/-- C10 witness: a shared-secret request carrying its own `X-User-ID`
header; the header reaches the upstream unchanged. -/
theorem c10_witness :
    (none : Option UserData) = none ∧
    (createProxyHandler "http://analytics-service:8083" downProxyEnv none
        { method := "GET", path := "/api/v1/stats", rawQuery := ""
          headers := [("Authorization", "Bearer sk"), ("X-User-ID", "999")]
          body := [] }).sent.headers
      = [("Authorization", "Bearer sk"), ("X-User-ID", "999")] ∧
    headerGet (createProxyHandler "http://analytics-service:8083" downProxyEnv none
        { method := "GET", path := "/api/v1/stats", rawQuery := ""
          headers := [("Authorization", "Bearer sk"), ("X-User-ID", "999")]
          body := [] }).sent.headers "X-User-ID"
      = headerGet [("Authorization", "Bearer sk"), ("X-User-ID", "999")] "X-User-ID" ∧
    headerGet (createProxyHandler "http://analytics-service:8083" downProxyEnv none
        { method := "GET", path := "/api/v1/stats", rawQuery := ""
          headers := [("Authorization", "Bearer sk"), ("X-User-ID", "999")]
          body := [] }).sent.headers "X-Username"
      = headerGet [("Authorization", "Bearer sk"), ("X-User-ID", "999")] "X-Username" :=
  c10_headers_forwarded_unchanged "sk" upEnv downProxyEnv "http://analytics-service:8083"
    { method := "GET", path := "/api/v1/stats", rawQuery := ""
      headers := [("Authorization", "Bearer sk"), ("X-User-ID", "999")]
      body := [] }
    none (by decide) (by decide)

/-- C3 (code bug, evaluated): a session token of a deactivated user —
the session row exists and is unexpired, the user has `isActive = false` —
is accepted by the verify-token operation: `VerifyToken` answers 200 with
the identity body (whose `isActive` field is `false`) instead of
rejecting the token. -/
theorem c3_inactive_user_session_accepted :
    VerifyToken inactiveUserStore 50 "Bearer tok123"
      = ((200, some { id := 1, username := "alice", email := "alice@example.com"
                      firstName := "", lastName := "", isActive := false
                      createdAt := 0, updatedAt := 0 }),
         inactiveUserStore) := by
  decide

/-- C6: a session whose `expiresAt` is in the past is rejected by
`GetSessionByToken` (the result is the not-found error), the session row
is deleted as a side effect, and a second lookup of the same token on the
resulting store — at any later (or any) time — is also rejected. -/
theorem c6_lazy_idempotent_expiry (db : Store) (now now2 : Nat) (s : Session)
    (hUniq : db.sessions.Pairwise (fun a b => a.token ≠ b.token))
    (hmem : s ∈ db.sessions)
    (hexp : s.expiresAt < now) :
    (GetSessionByToken db now s.token).1 = .errUserNotFound ∧
    s ∉ (GetSessionByToken db now s.token).2.sessions ∧
    (GetSessionByToken (GetSessionByToken db now s.token).2 now2 s.token).1
      = .errUserNotFound := by
  have hfind : db.sessions.find? (fun x => x.token == s.token) = some s :=
    find?_key_self (fun x => x.token) hUniq hmem
  have hstep : GetSessionByToken db now s.token
      = (.errUserNotFound,
         { db with sessions := db.sessions.filter (fun x => x.id != s.id) }) := by
    simp [GetSessionByToken, hfind, hexp]
  have hnone : (db.sessions.filter (fun x => x.id != s.id)).find?
      (fun x => x.token == s.token) = none := by
    rw [List.find?_eq_none]
    intro x hx hbeq
    rw [List.mem_filter] at hx
    obtain ⟨hxl, hxid⟩ := hx
    have hxtok : x.token = s.token := by simpa using hbeq
    have hxs : x = s := eq_of_pairwise_key (fun x => x.token) hUniq hxl hmem hxtok
    rw [hxs] at hxid
    simp at hxid
  refine ⟨by rw [hstep], ?_, ?_⟩
  · rw [hstep]
    simp [List.mem_filter]
  · rw [hstep]
    simp [GetSessionByToken, hnone]

/-- C6 witness: the concrete expired session is rejected, removed, and
still rejected on a second lookup. -/
theorem c6_witness :
    (GetSessionByToken expiredSessionStore 20 "oldtok").1 = .errUserNotFound ∧
    ({ id := 3, userID := 1, token := "oldtok", expiresAt := 10 } : Session)
        ∉ (GetSessionByToken expiredSessionStore 20 "oldtok").2.sessions ∧
    (GetSessionByToken (GetSessionByToken expiredSessionStore 20 "oldtok").2
        30 "oldtok").1 = .errUserNotFound :=
  c6_lazy_idempotent_expiry expiredSessionStore 20 30
    { id := 3, userID := 1, token := "oldtok", expiresAt := 10 }
    (List.pairwise_singleton _ _) (by decide) (by decide)

/-- C7: a stored API key with `isActive = false` is rejected by
`ValidateAPIKey` at every time `now` — regardless of its `expiresAt`,
which is unconstrained here — and the validate-key endpoint answers 401
for it. -/
theorem c7_inactive_key_rejected (db : Store) (now : Nat) (kr : APIKey)
    (hUniq : db.apiKeys.Pairwise (fun a b => a.key ≠ b.key))
    (hmem : kr ∈ db.apiKeys)
    (hinactive : kr.isActive = false) :
    ValidateAPIKey db.apiKeys now kr.key = none ∧
    (AuthValidateAPIKey db now (some kr.key)).1 = 401 := by
  have hnone : db.apiKeys.find?
      (fun k => k.key == kr.key && k.isActive && now < k.expiresAt) = none := by
    rw [List.find?_eq_none]
    intro x hx hcon
    simp only [Bool.and_eq_true, beq_iff_eq, decide_eq_true_eq] at hcon
    obtain ⟨⟨hkeq, hact⟩, _⟩ := hcon
    have hxk : x = kr := eq_of_pairwise_key (fun k => k.key) hUniq hx hmem hkeq
    rw [hxk, hinactive] at hact
    exact Bool.false_ne_true hact
  have hval : ValidateAPIKey db.apiKeys now kr.key = none := by
    simp [ValidateAPIKey, hnone]
  exact ⟨hval, by simp [AuthValidateAPIKey, hval]⟩

/-- C7 witness: the revoked key (expiry far in the future, `now = 5`) is
rejected by the repository and the endpoint answers 401. -/
theorem c7_witness :
    ValidateAPIKey revokedKeyStore.apiKeys 5 "sk_revoked" = none ∧
    (AuthValidateAPIKey revokedKeyStore 5 (some "sk_revoked")).1 = 401 :=
  c7_inactive_key_rejected revokedKeyStore 5
    { id := 7, userID := 1, key := "sk_revoked", name := "old"
      expiresAt := 1000000, isActive := false }
    (List.pairwise_singleton _ _) (by decide) rfl

/-- C5 counterexample: user 2 revoking (or deleting) key id 1, which is
owned by user 1, receives HTTP status 500 from the endpoints — the same
response as for a nonexistent id, but not the NotFound (404) the claim
requires "including at the HTTP endpoints"; the store is unchanged. -/
theorem c5_counterexample :
    RevokeAPIKeyHandler oneKeyStore (some 2) (some 1) = (500, oneKeyStore) ∧
    DeleteAPIKeyHandler oneKeyStore (some 2) (some 1) = (500, oneKeyStore) := by
  decide

/-- C5 (amended): a revoke or delete of an existing key by a non-owner
leaves the key table unchanged and returns the repository's not-found
error — the same observable result as for a nonexistent id, never a
Forbidden — while the HTTP endpoints translate every repository error,
this one included, to status 500 with an unchanged store (rather than a
404 NotFound). -/
theorem c5_wrong_owner_not_found_500 (db : Store) (caller : Nat) (k : APIKey)
    (hUniq : db.apiKeys.Pairwise (fun a b => a.id ≠ b.id))
    (hmem : k ∈ db.apiKeys)
    (howner : k.userID ≠ caller) :
    RevokeAPIKey db.apiKeys k.id caller = (.errNotFound, db.apiKeys) ∧
    DeleteAPIKey db.apiKeys k.id caller = (.errNotFound, db.apiKeys) ∧
    RevokeAPIKeyHandler db (some caller) (some k.id) = (500, db) ∧
    DeleteAPIKeyHandler db (some caller) (some k.id) = (500, db) := by
  have hno : ∀ x ∈ db.apiKeys, (x.id == k.id && x.userID == caller) = false := by
    intro x hx
    by_cases hid : x.id = k.id
    · have hxk : x = k := eq_of_pairwise_key (fun y => y.id) hUniq hx hmem hid
      subst hxk
      simp [howner]
    · simp [hid]
  have hfilter : db.apiKeys.filter (fun x => x.id == k.id && x.userID == caller) = [] := by
    rw [List.filter_eq_nil_iff]
    intro a ha
    simp [hno a ha]
  have hmap : db.apiKeys.map (fun x =>
      if x.id == k.id && x.userID == caller then { x with isActive := false } else x)
      = db.apiKeys := by
    calc db.apiKeys.map (fun x =>
        if x.id == k.id && x.userID == caller then { x with isActive := false } else x)
        = db.apiKeys.map id := List.map_congr_left (fun a ha => by simp [hno a ha])
      _ = db.apiKeys := List.map_id _
  have hkeep : db.apiKeys.filter (fun x => !(x.id == k.id && x.userID == caller))
      = db.apiKeys := by
    rw [List.filter_eq_self]
    intro a ha
    simp [hno a ha]
  have hrev : RevokeAPIKey db.apiKeys k.id caller = (.errNotFound, db.apiKeys) := by
    simp only [RevokeAPIKey]
    rw [hfilter, hmap]
    simp
  have hdel : DeleteAPIKey db.apiKeys k.id caller = (.errNotFound, db.apiKeys) := by
    simp only [DeleteAPIKey]
    rw [hfilter, hkeep]
    simp
  refine ⟨hrev, hdel, ?_, ?_⟩
  · simp [RevokeAPIKeyHandler, hrev]
  · simp [DeleteAPIKeyHandler, hdel]

/-- C5 witness: the amended theorem at the concrete one-key store with a
non-owner caller. -/
theorem c5_witness :
    RevokeAPIKey oneKeyStore.apiKeys 1 2 = (.errNotFound, oneKeyStore.apiKeys) ∧
    DeleteAPIKey oneKeyStore.apiKeys 1 2 = (.errNotFound, oneKeyStore.apiKeys) ∧
    RevokeAPIKeyHandler oneKeyStore (some 2) (some 1) = (500, oneKeyStore) ∧
    DeleteAPIKeyHandler oneKeyStore (some 2) (some 1) = (500, oneKeyStore) :=
  c5_wrong_owner_not_found_500 oneKeyStore 2
    { id := 1, userID := 1, key := "sk_k1", name := "ci-bot"
      expiresAt := 1000, isActive := true }
    (List.pairwise_singleton _ _) (by decide) (by decide)

end AiBaseApp
